import Mathlib

/-!
Verification of `Scripts/miscScripts/jamfProMetricsReport.py`.

The script fetches Jamf Pro smart-group information per group id
(`getInfoSmartGroup`), aggregates the successful results and a running
total in the `__main__` loop, prints a report, and then runs a second,
print-only pass over a separate id list.  The definitions below are a
shallow embedding of that code: the HTTP layer is an explicit function
from a group id to a response, Python `None` is `Option.none`, and the
two uncaught exception sites of `getInfoSmartGroup` are explicit
constructors of `FetchOutcome`.
-/

/-- Tuple `(groupName, computerCount)` returned by a successful
`getInfoSmartGroup` call.  `groupName` is `data.find("name").text`, which is
Python `None` for an element without text, hence `Option String`. -/
structure GroupResult where
  name : Option String
  count : Nat
deriving Repr, DecidableEq

/-- Sum of the `count` fields of a list of results. -/
def totalOf (rs : List GroupResult) : Nat :=
  (rs.map GroupResult.count).sum

/-- XML element as `xml.etree.ElementTree` exposes it to this script:
a tag, optional text, and a list of child elements. -/
inductive Xml where
  | elem : String → Option String → List Xml → Xml

/-- Tag of an element. -/
def Xml.tag : Xml → String
  | .elem t _ _ => t

/-- Text of an element (`.text`, possibly `None`). -/
def Xml.text : Xml → Option String
  | .elem _ s _ => s

/-- Child elements of an element. -/
def Xml.children : Xml → List Xml
  | .elem _ _ cs => cs

/-- `element.find(t)`: the first direct child whose tag is `t`, or `None`. -/
def Xml.find (x : Xml) (t : String) : Option Xml :=
  x.children.find? (fun c => c.tag == t)

/-- Number of elements with tag `t` in a forest, descendants included. -/
def countTagList (t : String) : List Xml → Nat
  | [] => 0
  | .elem tg _ cs :: rest =>
      (if tg = t then 1 else 0) + countTagList t cs + countTagList t rest

/-- Length of `data.findall(".//" + t)`: all proper descendants of `x`
with tag `t` (the root element itself is not matched by `.//`). -/
def Xml.countDesc (x : Xml) (t : String) : Nat :=
  countTagList t x.children

/-- HTTP response as `getInfoSmartGroup` consumes it: a numeric status code
and a body; `content = none` models a body that `ElementTree.fromstring`
cannot parse. -/
structure HttpResponse where
  status : Nat
  content : Option Xml

/-- Condition under which `response.raise_for_status()` raises
`requests.exceptions.HTTPError`: status codes 400–599. -/
def raiseForStatus (status : Nat) : Bool :=
  400 ≤ status && status < 600

/-- Observable outcomes of `getInfoSmartGroup`: a returned tuple, a returned
`None` (the caught `HTTPError` path), or one of the two uncaught exception
sites (`ElementTree.fromstring` on an unparsable body; `.text` on the `None`
produced by `data.find("name")` when no `name` child exists). -/
inductive FetchOutcome where
  | ok : GroupResult → FetchOutcome
  | failure : FetchOutcome
  | raisesParseError : FetchOutcome
  | raisesAttributeError : FetchOutcome
deriving Repr, DecidableEq

/-- Embedding of `getInfoSmartGroup` (source lines 19–36).  `http` is the
ambient HTTP layer: the response `requests.get` obtains for a group id. -/
def getInfoSmartGroup (http : String → HttpResponse) (smartGroupID : String) :
    FetchOutcome :=
  let response := http smartGroupID
  if raiseForStatus response.status then
    FetchOutcome.failure
  else
    match response.content with
    | none => FetchOutcome.raisesParseError
    | some data =>
        match data.find "name" with
        | none => FetchOutcome.raisesAttributeError
        | some nameElem =>
            FetchOutcome.ok ⟨nameElem.text, data.countDesc "computer"⟩

/-- One iteration of the `__main__` aggregation loop (lines 43–47): call the
fetch capability; on a result, append it to `results` and add its count to
`totalCount`; on `None`, leave the state unchanged. -/
def aggStep (fetch : String → Option GroupResult)
    (st : List GroupResult × Nat) (gid : String) : List GroupResult × Nat :=
  match fetch gid with
  | some smartgroupInfo => (st.1 ++ [smartgroupInfo], st.2 + smartgroupInfo.count)
  | none => st

/-- The `__main__` aggregation loop (lines 39–47): starting from
`results = []` and `totalCount = 0`, process the identifiers in order. -/
def aggregate (fetch : String → Option GroupResult)
    (smartGroupIDs : List String) : List GroupResult × Nat :=
  smartGroupIDs.foldl (aggStep fetch) ([], 0)

/-- Instrumented variant of the aggregation loop used to reason about the
sequence of fetch calls: the state also records the list of identifiers
passed to the fetch capability so far, and the capability may choose its
answer from that history (covering history-dependent behaviors). -/
def aggStepT (fetch : List String → String → Option GroupResult)
    (st : (List GroupResult × Nat) × List String) (gid : String) :
    (List GroupResult × Nat) × List String :=
  match fetch st.2 gid with
  | some info => ((st.1.1 ++ [info], st.1.2 + info.count), st.2 ++ [gid])
  | none => (st.1, st.2 ++ [gid])

/-- Instrumented aggregation loop from the empty call history. -/
def aggregateT (fetch : List String → String → Option GroupResult)
    (smartGroupIDs : List String) : (List GroupResult × Nat) × List String :=
  smartGroupIDs.foldl (aggStepT fetch) (([], 0), [])

/-- State of `__main__` after the first report is printed: the `results`
list, the `totalCount` counter, and the lines printed so far. -/
structure MainState where
  results : List GroupResult
  totalCount : Nat
  output : List String
deriving Repr, DecidableEq

/-- Python rendering of an optional string (`str(None) = "None"`). -/
def fmtPyOpt : Option String → String
  | some s => s
  | none => "None"

/-- The per-group line printed by the script. -/
def smartGroupLine (info : GroupResult) : String :=
  "Smart Group Name: " ++ fmtPyOpt info.name ++ ", Number of Computers: "
    ++ toString info.count

/-- One iteration of the second, `Separate Groups` loop (lines 58–61): call
the fetch capability and, on a result, print one line; nothing else is
touched. -/
def separateGroupsStep (fetch : String → Option GroupResult)
    (st : MainState) (gid : String) : MainState :=
  match fetch gid with
  | some smartgroupInfo =>
      { st with output := st.output ++ [smartGroupLine smartgroupInfo] }
  | none => st

/-- The second, `Separate Groups` loop over `totalEnrolledDevices`. -/
def separateGroupsLoop (fetch : String → Option GroupResult)
    (totalEnrolledDevices : List String) (st : MainState) : MainState :=
  totalEnrolledDevices.foldl (separateGroupsStep fetch) st

/-- Sample fetch capability used in concrete witnesses: id `"2"` fails,
any other id yields a result with count 10. -/
def sampleFetch : String → Option GroupResult :=
  fun gid => if gid = "2" then none else some ⟨some ("G-" ++ gid), 10⟩

/-- Sample successful result used in concrete witnesses. -/
def sampleResult : GroupResult := ⟨some "G-1", 10⟩

/-- Sample well-formed XML body whose root has no `name` child. -/
def sampleXmlNoName : Xml :=
  Xml.elem "computer_group" none [Xml.elem "computers" none []]

@[simp] lemma totalOf_nil : totalOf [] = 0 := rfl

@[simp] lemma totalOf_cons (r : GroupResult) (rs : List GroupResult) :
    totalOf (r :: rs) = r.count + totalOf rs := by
  simp [totalOf]

lemma totalOf_append (a b : List GroupResult) :
    totalOf (a ++ b) = totalOf a + totalOf b := by
  induction a with
  | nil => simp
  | cons r rs ih => simp [ih, Nat.add_assoc]

lemma aggregate_foldl (fetch : String → Option GroupResult) :
    ∀ (ids : List String) (st : List GroupResult × Nat),
      List.foldl (aggStep fetch) st ids
        = (st.1 ++ ids.filterMap fetch, st.2 + totalOf (ids.filterMap fetch)) := by
  intro ids
  induction ids with
  | nil => intro st; simp
  | cons gid rest ih =>
      intro st
      simp only [List.foldl_cons, List.filterMap_cons]
      cases h : fetch gid with
      | none => simp [aggStep, h, ih]
      | some info => simp [aggStep, h, ih, List.append_assoc, Nat.add_assoc]

lemma aggregate_eq (fetch : String → Option GroupResult) (ids : List String) :
    aggregate fetch ids = (ids.filterMap fetch, totalOf (ids.filterMap fetch)) := by
  simpa [aggregate] using aggregate_foldl fetch ids ([], 0)

lemma aggregateT_log (fetch : List String → String → Option GroupResult) :
    ∀ (ids : List String) (st : (List GroupResult × Nat) × List String),
      (List.foldl (aggStepT fetch) st ids).2 = st.2 ++ ids := by
  intro ids
  induction ids with
  | nil => intro st; simp
  | cons gid rest ih =>
      intro st
      simp only [List.foldl_cons]
      cases h : fetch st.2 gid with
      | none => simp [aggStepT, h, ih]
      | some info => simp [aggStepT, h, ih]

lemma aggregateT_fst (f : String → Option GroupResult) :
    ∀ (ids : List String) (p : List GroupResult × Nat) (log : List String),
      (List.foldl (aggStepT (fun _ => f)) (p, log) ids).1
        = List.foldl (aggStep f) p ids := by
  intro ids
  induction ids with
  | nil => intro p log; rfl
  | cons gid rest ih =>
      intro p log
      simp only [List.foldl_cons]
      cases h : f gid with
      | none => simp [aggStepT, aggStep, h, ih]
      | some info => simp [aggStepT, aggStep, h, ih]

lemma separateGroupsStep_frame (fetch : String → Option GroupResult)
    (st : MainState) (gid : String) :
    (separateGroupsStep fetch st gid).totalCount = st.totalCount ∧
    (separateGroupsStep fetch st gid).results = st.results := by
  cases h : fetch gid <;> simp [separateGroupsStep, h]

lemma separateGroupsLoop_frame (fetch : String → Option GroupResult) :
    ∀ (ids : List String) (st : MainState),
      (separateGroupsLoop fetch ids st).totalCount = st.totalCount ∧
      (separateGroupsLoop fetch ids st).results = st.results := by
  intro ids
  induction ids with
  | nil => intro st; exact ⟨rfl, rfl⟩
  | cons gid rest ih =>
      intro st
      have hstep := separateGroupsStep_frame fetch st gid
      have hrest := ih (separateGroupsStep fetch st gid)
      simp only [separateGroupsLoop, List.foldl_cons] at *
      exact ⟨hrest.1.trans hstep.1, hrest.2.trans hstep.2⟩

/-- C1: for every fetch behavior and input sequence, the report's total
equals the sum of the counts of the results it contains, and an identifier
whose fetch fails contributes neither an entry to the results nor any
amount to the total. -/
theorem C1_total_invariant (fetch : String → Option GroupResult)
    (ids : List String) :
    (aggregate fetch ids).2 = totalOf (aggregate fetch ids).1 ∧
    ∀ gid, fetch gid = none →
      aggregate fetch (ids ++ [gid]) = aggregate fetch ids := by
  constructor
  · simp [aggregate_eq]
  · intro gid h
    simp [aggregate_eq, List.filterMap_append, List.filterMap_cons, h]

/-- Witness for C1 at the fetch capability that always fails. -/
theorem C1_total_invariant_witness :
    (aggregate (fun _ => none) ["1"]).2
        = totalOf (aggregate (fun _ => none) ["1"]).1 ∧
    aggregate (fun _ => none) (["1"] ++ ["2"]) = aggregate (fun _ => none) ["1"] :=
  ⟨(C1_total_invariant (fun _ => none) ["1"]).1,
   (C1_total_invariant (fun _ => none) ["1"]).2 "2" rfl⟩

/-- C2: the results are exactly the successful fetches in input order with
failed identifiers omitted — `List.filterMap` of the fetch capability over
the input, so no reordering or sorting is applied. -/
theorem C2_order_preserved (fetch : String → Option GroupResult)
    (ids : List String) :
    (aggregate fetch ids).1 = ids.filterMap fetch := by
  simp [aggregate_eq]

/-- C3: a failed identifier anywhere in the input adds no entry, leaves the
running total unchanged, and processing continues with the remaining
identifiers: the aggregate over the input with the failed identifier equals
the aggregate over the input with it removed. -/
theorem C3_failure_skipped (fetch : String → Option GroupResult)
    (gid : String) (pre post : List String) (h : fetch gid = none) :
    aggregate fetch (pre ++ gid :: post) = aggregate fetch (pre ++ post) := by
  simp [aggregate_eq, List.filterMap_append, List.filterMap_cons, h]

/-- Witness for C3: `sampleFetch` fails on `"2"`, which is skipped between
`"1"` and `"3"`. -/
theorem C3_failure_skipped_witness :
    aggregate sampleFetch (["1"] ++ "2" :: ["3"])
      = aggregate sampleFetch (["1"] ++ ["3"]) :=
  C3_failure_skipped sampleFetch "2" ["1"] ["3"] (by decide)

/-- C5: the empty identifier list yields the report with empty results and
total 0. -/
theorem C5_empty_input (fetch : String → Option GroupResult) :
    aggregate fetch [] = ([], 0) := rfl

lemma filterMap_none_of_all (fetch : String → Option GroupResult) :
    ∀ (ids : List String), (∀ g ∈ ids, fetch g = none) →
      ids.filterMap fetch = [] := by
  intro ids
  induction ids with
  | nil => intro _; rfl
  | cons gid rest ih =>
      intro hall
      have hg : fetch gid = none := hall gid (List.mem_cons_self gid rest)
      have hr : ∀ g ∈ rest, fetch g = none :=
        fun g hgm => hall g (List.mem_cons_of_mem gid hgm)
      simp [List.filterMap_cons, hg, ih hr]

/-- C6: a non-empty input on which every fetch fails yields the report with
empty results and total 0 (the loop completes normally rather than
erroring). -/
theorem C6_all_fail (fetch : String → Option GroupResult) (ids : List String)
    (_hne : ids ≠ []) (hall : ∀ g ∈ ids, fetch g = none) :
    aggregate fetch ids = ([], 0) := by
  simp [aggregate_eq, filterMap_none_of_all fetch ids hall]

/-- Witness for C6 at the fetch capability that always fails on a two-element
input. -/
theorem C6_all_fail_witness :
    aggregate (fun _ => none) ["1", "2"] = ([], 0) :=
  C6_all_fail (fun _ => none) ["1", "2"] (by decide) (fun _ _ => rfl)

/-- C7: duplicate identifiers are not deduplicated — with two occurrences of
the same identifier in the input and a successful fetch for it, each
occurrence contributes its own entry to the results and its own count to
the total. -/
theorem C7_duplicates_independent (fetch : String → Option GroupResult)
    (g : String) (r : GroupResult) (ids1 ids2 ids3 : List String)
    (h : fetch g = some r) :
    aggregate fetch (ids1 ++ g :: (ids2 ++ g :: ids3))
      = (ids1.filterMap fetch
           ++ r :: (ids2.filterMap fetch ++ r :: ids3.filterMap fetch),
         totalOf (ids1.filterMap fetch)
           + (r.count + (totalOf (ids2.filterMap fetch)
               + (r.count + totalOf (ids3.filterMap fetch))))) := by
  simp [aggregate_eq, List.filterMap_append, List.filterMap_cons, h,
    totalOf_append]

/-- Witness for C7: `sampleFetch` succeeds on `"1"`, which occurs twice. -/
theorem C7_duplicates_independent_witness :
    aggregate sampleFetch (["2"] ++ "1" :: ([] ++ "1" :: []))
      = (List.filterMap sampleFetch ["2"]
           ++ sampleResult :: (List.filterMap sampleFetch []
               ++ sampleResult :: List.filterMap sampleFetch []),
         totalOf (List.filterMap sampleFetch ["2"])
           + (sampleResult.count + (totalOf (List.filterMap sampleFetch [])
               + (sampleResult.count
                   + totalOf (List.filterMap sampleFetch []))))) :=
  C7_duplicates_independent sampleFetch "1" sampleResult ["2"] [] []
    (by decide)

/-- C8: the aggregation loop calls the fetch capability exactly once per
identifier occurrence, in input order (the recorded call history of the
instrumented loop is the input itself, for every history-dependent
behavior of the capability), and when the capability answers as a function
of the identifier alone the instrumented loop computes exactly the
aggregate — each answer is folded into the state before the next call. -/
theorem C8_fetch_calls (fetch : List String → String → Option GroupResult)
    (ids : List String) :
    (aggregateT fetch ids).2 = ids ∧
    ∀ f : String → Option GroupResult,
      (aggregateT (fun _ => f) ids).1 = aggregate f ids := by
  constructor
  · simpa using aggregateT_log fetch ids (([], 0), [])
  · intro f
    exact aggregateT_fst f ids ([], 0) []

/-- C10: the `Separate Groups` pass is print-only — for every fetch behavior
and every starting state, it changes neither `totalCount` (so the total
printed before the loop still equals `totalCount` after it) nor the
`results` list built by the first pass. -/
theorem C10_separate_groups_frame (fetch : String → Option GroupResult)
    (ids : List String) (st : MainState) :
    (separateGroupsLoop fetch ids st).totalCount = st.totalCount ∧
    (separateGroupsLoop fetch ids st).results = st.results :=
  separateGroupsLoop_frame fetch ids st

/-- C9: with a 2xx status and a well-formed body whose root element has no
`name` child, `getInfoSmartGroup` hits the uncaught `.text`-on-`None`
attribute error instead of returning a result or `None`. -/
theorem C9_missing_name_raises (http : String → HttpResponse) (gid : String)
    (h2 : 200 ≤ (http gid).status) (h3 : (http gid).status < 300)
    (data : Xml) (hc : (http gid).content = some data)
    (hn : data.find "name" = none) :
    getInfoSmartGroup http gid = FetchOutcome.raisesAttributeError := by
  have hrs : raiseForStatus (http gid).status = false := by
    simp only [raiseForStatus, Bool.and_eq_false_iff, decide_eq_false_iff_not,
      not_le, not_lt]
    omega
  simp [getInfoSmartGroup, hrs, hc, hn]

/-- Witness for C9: status 200 and a parsed body with no `name` child. -/
theorem C9_missing_name_raises_witness :
    getInfoSmartGroup (fun _ => ⟨200, some sampleXmlNoName⟩) "1"
      = FetchOutcome.raisesAttributeError :=
  C9_missing_name_raises (fun _ => ⟨200, some sampleXmlNoName⟩) "1"
    (by decide) (by decide) sampleXmlNoName rfl rfl

/-- C4 counterexample: with a 2xx status and an unparsable body,
`getInfoSmartGroup` raises an uncaught parse error rather than returning
`None`, so the claim that both error classes map to `FetchFailure` without
raising is false on the code. -/
theorem C4_counterexample :
    getInfoSmartGroup (fun _ => ⟨200, none⟩) "1"
        = FetchOutcome.raisesParseError ∧
    getInfoSmartGroup (fun _ => ⟨200, none⟩) "1" ≠ FetchOutcome.failure := by
  exact ⟨rfl, by decide⟩

/-- C4 amended: `getInfoSmartGroup` returns `FetchFailure` (`None`) without
raising exactly for the statuses on which `raise_for_status` raises
(400–599); for any other status it parses the body, and a
malformed/unparsable body then raises an uncaught parse error instead of
returning `FetchFailure`. -/
theorem C4_http_error_handling (http : String → HttpResponse) (gid : String) :
    (raiseForStatus (http gid).status = true →
      getInfoSmartGroup http gid = FetchOutcome.failure) ∧
    (raiseForStatus (http gid).status = false → (http gid).content = none →
      getInfoSmartGroup http gid = FetchOutcome.raisesParseError) := by
  constructor
  · intro h
    simp [getInfoSmartGroup, h]
  · intro h hc
    simp [getInfoSmartGroup, h, hc]

/-- Witness for the amended C4: a 404 response yields `None`; a 304 response
with an unparsable body raises the parse error. -/
theorem C4_http_error_handling_witness :
    getInfoSmartGroup (fun _ => ⟨404, none⟩) "1" = FetchOutcome.failure ∧
    getInfoSmartGroup (fun _ => ⟨304, none⟩) "1"
      = FetchOutcome.raisesParseError :=
  ⟨(C4_http_error_handling (fun _ => ⟨404, none⟩) "1").1 rfl,
   (C4_http_error_handling (fun _ => ⟨304, none⟩) "1").2 rfl rfl⟩
